import Mathlib

/-!
Shallow embedding of the document / translation-unit cache of the clang
backend (src/tools/clangbackend/ipcsource/clangdocument.cpp).

Machine types are modelled as follows: Utf8String as String, time_point
(std::chrono::steady_clock::time_point) as Nat, QSet<Utf8String> /
Utf8StringVector as List String, the filesystem (QFileInfo::exists) as a
predicate on paths.  The shared backing state DocumentData is a record; a
Document handle is an optional pointer to it (the shared_ptr d).  Methods
that can throw (via checkIfNull / checkIfFileExists) are embedded in the
Except monad; methods on the backing data are state-passing functions.
-/

namespace ClangBackEnd

abbrev Utf8String := String

abbrev TimePoint := Nat

/-- QFileInfo::exists, modelled as the set of paths present on disk. -/
abbrev FileSystem := Utf8String → Bool

/-- The slice of ProjectPart that clangdocument.cpp reads: its id, its
arguments and its last change time point. -/
structure ProjectPart where
  projectPartId : Utf8String
  arguments : List Utf8String
  lastChangeTimePoint : TimePoint
deriving Repr, DecidableEq

structure UnsavedFile where
  filePath : Utf8String
  fileContent : Utf8String
  documentRevision : Nat
deriving Repr, DecidableEq

abbrev UnsavedFiles := List UnsavedFile

/-- The fields of class DocumentData (clangdocument.cpp, lines 49-78) that the
modelled operations read or write.  The CXTranslationUnit / CXIndex handles are
opaque to every claim and are omitted; the back reference to Documents is
passed explicitly to the operations that use it. -/
structure DocumentData where
  filePath : Utf8String
  fileArguments : List Utf8String
  projectPart : ProjectPart
  lastProjectPartChangeTimePoint : TimePoint
  dependedFilePaths : List Utf8String
  documentRevision : Nat
  needsToBeReparsedChangeTimePoint : TimePoint
  hasParseOrReparseFailed : Bool
  needsToBeReparsed : Bool
  isUsedByCurrentEditor : Bool
  isVisibleInEditor : Bool
deriving Repr, DecidableEq

/-- The slice of the Documents collection that Document uses: the unsaved
files it supplies to update requests, and the global watch set. -/
structure Documents where
  unsavedFiles : UnsavedFiles
  watchedFilePaths : List Utf8String
deriving Repr, DecidableEq

/-- Modelled from the spec: Documents::addWatchedFiles lives in
clangdocuments.cpp, which is not among the analysed sources; the spec says it
unions the given paths into the global watch set (at-least-once semantics,
duplicates harmless). -/
def Documents.addWatchedFiles (docs : Documents) (paths : List Utf8String) :
    Documents :=
  { docs with watchedFilePaths := docs.watchedFilePaths.union paths }

/-- TranslationUnitUpdateResult: the fields clangdocument.cpp reads. -/
structure TranslationUnitUpdateResult where
  hasParseOrReparseFailed : Bool
  parseTimePointIsSet : Bool
  parseTimePoint : TimePoint
  reparsed : Bool
  needsToBeReparsedChangeTimePoint : TimePoint
  dependedOnFilePaths : List Utf8String
deriving Repr, DecidableEq

/-- TranslationUnitUpdateInput: the fields Document::createUpdateInput fills. -/
structure TranslationUnitUpdateInput where
  parseNeeded : Bool
  reparseNeeded : Bool
  needsToBeReparsedChangeTimePoint : TimePoint
  filePath : Utf8String
  fileArguments : List Utf8String
  unsavedFiles : UnsavedFiles
  projectId : Utf8String
  projectArguments : List Utf8String
deriving Repr, DecidableEq

/-- Document::fileExists (line 371): QFileInfo::exists(d->filePath). -/
def DocumentData.fileExists (d : DocumentData) (fs : FileSystem) : Bool :=
  fs d.filePath

/-- Document::isProjectPartOutdated (line 193):
d->projectPart.lastChangeTimePoint() >= d->lastProjectPartChangeTimePoint. -/
def DocumentData.isProjectPartOutdated (d : DocumentData) : Bool :=
  decide (d.projectPart.lastChangeTimePoint ≥ d.lastProjectPartChangeTimePoint)

/-- Document::setDirty (line 353): refresh the needs-reparse-requested-at
time point to the current time and set the flag.  The clock reading
std::chrono::steady_clock::now() is passed in as the argument now. -/
def DocumentData.setDirty (d : DocumentData) (now : TimePoint) : DocumentData :=
  { d with needsToBeReparsedChangeTimePoint := now, needsToBeReparsed := true }

/-- Document::isMainFileAndExistsOrIsOtherFile (line 376). -/
def DocumentData.isMainFileAndExistsOrIsOtherFile (d : DocumentData)
    (fs : FileSystem) (filePath : Utf8String) : Bool :=
  if filePath = d.filePath then fs d.filePath else true

/-- Document::setDirtyIfDependencyIsMet (line 262). -/
def DocumentData.setDirtyIfDependencyIsMet (d : DocumentData) (fs : FileSystem)
    (filePath : Utf8String) (now : TimePoint) : DocumentData :=
  if filePath ∈ d.dependedFilePaths
      ∧ d.isMainFileAndExistsOrIsOtherFile fs filePath = true then
    d.setDirty now
  else
    d

/-- Document::createUpdateInput (line 268): builds the request from the current
fields and the unsaved files supplied by d->documents; the second component is
the backing state after the call (the method only reads). -/
def DocumentData.createUpdateInput (d : DocumentData) (docs : Documents) :
    TranslationUnitUpdateInput × DocumentData :=
  ({ parseNeeded := d.isProjectPartOutdated,
     reparseNeeded := d.needsToBeReparsed,
     needsToBeReparsedChangeTimePoint := d.needsToBeReparsedChangeTimePoint,
     filePath := d.filePath,
     fileArguments := d.fileArguments,
     unsavedFiles := docs.unsavedFiles,
     projectId := d.projectPart.projectPartId,
     projectArguments := d.projectPart.arguments }, d)

/-- Document::incorporateUpdaterResult (lines 296-316), state-passing over the
backing data and the owning Documents collection. -/
def DocumentData.incorporateUpdaterResult (d : DocumentData) (docs : Documents)
    (result : TranslationUnitUpdateResult) : DocumentData × Documents :=
  let d := { d with hasParseOrReparseFailed := result.hasParseOrReparseFailed }
  if d.hasParseOrReparseFailed then
    ({ d with needsToBeReparsed := false }, docs)
  else
    let d := if result.parseTimePointIsSet then
        { d with lastProjectPartChangeTimePoint := result.parseTimePoint }
      else d
    let d := if result.parseTimePointIsSet || result.reparsed then
        { d with dependedFilePaths := result.dependedOnFilePaths }
      else d
    let docs := docs.addWatchedFiles d.dependedFilePaths
    let d := if result.reparsed
          ∧ result.needsToBeReparsedChangeTimePoint
              = d.needsToBeReparsedChangeTimePoint then
        { d with needsToBeReparsed := false }
      else d
    (d, docs)

/-- The exceptions of clangexceptions.h that clangdocument.cpp throws. -/
inductive ClangBackEndError where
  | documentIsNull
  | documentFileDoesNotExist (filePath : Utf8String)
deriving Repr, DecidableEq

/-- A Document handle: the shared_ptr<DocumentData> d, which may be empty
(null document). -/
structure Document where
  d : Option DocumentData
deriving Repr, DecidableEq

/-- Document::isNull (line 135): !d. -/
def Document.isNull (doc : Document) : Bool :=
  doc.d.isNone

/-- Document::reset (line 130): d.reset(). -/
def Document.reset (_doc : Document) : Document :=
  ⟨none⟩

/-- Document::filePath (line 147): checkIfNull then d->filePath. -/
def Document.filePath : Document → Except ClangBackEndError Utf8String
  | ⟨none⟩ => .error .documentIsNull
  | ⟨some d⟩ => .ok d.filePath

/-- Document::fileArguments (line 154): checkIfNull then d->fileArguments. -/
def Document.fileArguments : Document → Except ClangBackEndError (List Utf8String)
  | ⟨none⟩ => .error .documentIsNull
  | ⟨some d⟩ => .ok d.fileArguments

/-- Document::projectPartId (line 172): checkIfNull then the project part id. -/
def Document.projectPartId : Document → Except ClangBackEndError Utf8String
  | ⟨none⟩ => .error .documentIsNull
  | ⟨some d⟩ => .ok d.projectPart.projectPartId

/-- Document::isProjectPartOutdated (line 193): checkIfNull then the timestamp
comparison. -/
def Document.isProjectPartOutdated : Document → Except ClangBackEndError Bool
  | ⟨none⟩ => .error .documentIsNull
  | ⟨some d⟩ => .ok d.isProjectPartOutdated

/-- Document::documentRevision (line 200): checkIfNull then d->documentRevision. -/
def Document.documentRevision : Document → Except ClangBackEndError Nat
  | ⟨none⟩ => .error .documentIsNull
  | ⟨some d⟩ => .ok d.documentRevision

/-- Document::isNeedingReparse (line 249): checkIfNull then
d->needsToBeReparsed. -/
def Document.isNeedingReparse : Document → Except ClangBackEndError Bool
  | ⟨none⟩ => .error .documentIsNull
  | ⟨some d⟩ => .ok d.needsToBeReparsed

/-- Document::isNeededReparseChangeTimePoint (line 242): checkIfNull then the
needs-reparse-requested-at time point. -/
def Document.isNeededReparseChangeTimePoint :
    Document → Except ClangBackEndError TimePoint
  | ⟨none⟩ => .error .documentIsNull
  | ⟨some d⟩ => .ok d.needsToBeReparsedChangeTimePoint

/-- Document::dependedFilePaths (line 345): checkIfNull, checkIfFileExists,
then d->dependedFilePaths. -/
def Document.dependedFilePaths (fs : FileSystem) :
    Document → Except ClangBackEndError (List Utf8String)
  | ⟨none⟩ => .error .documentIsNull
  | ⟨some d⟩ =>
    if d.fileExists fs then .ok d.dependedFilePaths
    else .error (.documentFileDoesNotExist d.filePath)

/-- Document::isIntact (line 140): !isNull() && fileExists() &&
!d->hasParseOrReparseFailed.  On a null handle the conjunction short-circuits
at !isNull(), so the method returns false without performing any null check
and never throws. -/
def Document.isIntact (fs : FileSystem) : Document → Except ClangBackEndError Bool
  | ⟨none⟩ => .ok false
  | ⟨some d⟩ => .ok (d.fileExists fs && !d.hasParseOrReparseFailed)

/-- Document's move constructor (line 118): d(std::move(other.d)).  The result
is (the new handle, the moved-from handle): moving a shared_ptr leaves the
source empty. -/
def Document.moveConstruct (other : Document) : Document × Document :=
  (⟨other.d⟩, ⟨none⟩)

/-- Document's move assignment (line 123): d = std::move(other.d).  The result
is (the assigned-to handle, the moved-from handle). -/
def Document.moveAssign (_self other : Document) : Document × Document :=
  (⟨other.d⟩, ⟨none⟩)

/-- A concrete project part used by the concrete-input theorems. -/
def exampleProjectPart : ProjectPart :=
  { projectPartId := "P1", arguments := ["-std=c++11"], lastChangeTimePoint := 0 }

/-- A concrete backing state used by the concrete-input theorems: the state of
a freshly constructed DocumentData for /a.cpp (dependency set {self}). -/
def exampleDoc : DocumentData :=
  { filePath := "/a.cpp",
    fileArguments := [],
    projectPart := exampleProjectPart,
    lastProjectPartChangeTimePoint := 0,
    dependedFilePaths := ["/a.cpp"],
    documentRevision := 0,
    needsToBeReparsedChangeTimePoint := 0,
    hasParseOrReparseFailed := false,
    needsToBeReparsed := false,
    isUsedByCurrentEditor := false,
    isVisibleInEditor := false }

/-- A concrete Documents collection used by the concrete-input theorems. -/
def exampleDocs : Documents :=
  { unsavedFiles := [], watchedFilePaths := [] }

/-- A concrete successful reparse result stamped with time point 0. -/
def exampleReparseResult : TranslationUnitUpdateResult :=
  { hasParseOrReparseFailed := false,
    parseTimePointIsSet := false,
    parseTimePoint := 0,
    reparsed := true,
    needsToBeReparsedChangeTimePoint := 0,
    dependedOnFilePaths := ["/a.cpp", "/a.h"] }

/-- A concrete failed update result. -/
def exampleFailedResult : TranslationUnitUpdateResult :=
  { hasParseOrReparseFailed := true,
    parseTimePointIsSet := false,
    parseTimePoint := 0,
    reparsed := false,
    needsToBeReparsedChangeTimePoint := 0,
    dependedOnFilePaths := [] }

/-- A concrete successful fresh-parse result (parse time point recorded, no
reparse). -/
def exampleParseResult : TranslationUnitUpdateResult :=
  { hasParseOrReparseFailed := false,
    parseTimePointIsSet := true,
    parseTimePoint := 3,
    reparsed := false,
    needsToBeReparsedChangeTimePoint := 0,
    dependedOnFilePaths := ["/a.cpp", "/a.h"] }

/-- A concrete successful result with neither a parse time point nor a
reparse flag: incorporating it changes neither the reparse flag nor the
dependency set. -/
def exampleStaleParseResult : TranslationUnitUpdateResult :=
  { hasParseOrReparseFailed := false,
    parseTimePointIsSet := false,
    parseTimePoint := 0,
    reparsed := false,
    needsToBeReparsedChangeTimePoint := 0,
    dependedOnFilePaths := ["/b.h"] }

/-- Field characterization of incorporateUpdaterResult in the non-failed
case: the flag is cleared exactly when a reparse happened whose recorded
request time point matches the state's current one. -/
theorem incorporate_fst_needsToBeReparsed
    (d : DocumentData) (docs : Documents) (r : TranslationUnitUpdateResult)
    (hf : r.hasParseOrReparseFailed = false) :
    (d.incorporateUpdaterResult docs r).1.needsToBeReparsed =
      if r.reparsed = true ∧ r.needsToBeReparsedChangeTimePoint
          = d.needsToBeReparsedChangeTimePoint
      then false else d.needsToBeReparsed := by
  by_cases hp : r.parseTimePointIsSet = true <;>
    by_cases hr : r.reparsed = true <;>
      by_cases ht : r.needsToBeReparsedChangeTimePoint
          = d.needsToBeReparsedChangeTimePoint <;>
        simp [DocumentData.incorporateUpdaterResult, hf, hp, hr, ht]

/-- Field characterization of incorporateUpdaterResult in the non-failed
case: the dependency set is replaced exactly when a parse time point was
recorded or a reparse happened. -/
theorem incorporate_fst_dependedFilePaths
    (d : DocumentData) (docs : Documents) (r : TranslationUnitUpdateResult)
    (hf : r.hasParseOrReparseFailed = false) :
    (d.incorporateUpdaterResult docs r).1.dependedFilePaths =
      if r.parseTimePointIsSet = true ∨ r.reparsed = true
      then r.dependedOnFilePaths else d.dependedFilePaths := by
  by_cases hp : r.parseTimePointIsSet = true <;>
    by_cases hr : r.reparsed = true <;>
      by_cases ht : r.needsToBeReparsedChangeTimePoint
          = d.needsToBeReparsedChangeTimePoint <;>
        simp [DocumentData.incorporateUpdaterResult, hf, hp, hr, ht]

/-- C1: for every backing state and every non-failed result with reparsed =
true, incorporateUpdaterResult clears needsToBeReparsed exactly when the
result's recorded needs-reparse-requested-at time point equals the state's
current needsToBeReparsedChangeTimePoint; in particular a setDirty issued
after the request was built (a strictly later time point) leaves
needsToBeReparsed true after incorporation. -/
theorem incorporate_reparse_clears_iff_timestamp_matches
    (d : DocumentData) (docs : Documents) (r : TranslationUnitUpdateResult)
    (hf : r.hasParseOrReparseFailed = false) (hr : r.reparsed = true) :
    (r.needsToBeReparsedChangeTimePoint = d.needsToBeReparsedChangeTimePoint →
      (d.incorporateUpdaterResult docs r).1.needsToBeReparsed = false)
    ∧ (r.needsToBeReparsedChangeTimePoint ≠ d.needsToBeReparsedChangeTimePoint →
      (d.incorporateUpdaterResult docs r).1.needsToBeReparsed
        = d.needsToBeReparsed)
    ∧ (d.needsToBeReparsed = true →
      ((d.incorporateUpdaterResult docs r).1.needsToBeReparsed = false ↔
        r.needsToBeReparsedChangeTimePoint = d.needsToBeReparsedChangeTimePoint))
    ∧ (∀ t2, r.needsToBeReparsedChangeTimePoint < t2 →
      ((d.setDirty t2).incorporateUpdaterResult docs r).1.needsToBeReparsed
        = true) := by
  refine ⟨?_, ?_, ?_, ?_⟩
  · intro heq
    rw [incorporate_fst_needsToBeReparsed d docs r hf, if_pos ⟨hr, heq⟩]
  · intro hne
    rw [incorporate_fst_needsToBeReparsed d docs r hf, if_neg]
    intro ⟨_, heq⟩
    exact hne heq
  · intro hneed
    constructor
    · intro hcleared
      rw [incorporate_fst_needsToBeReparsed d docs r hf] at hcleared
      by_contra hne
      rw [if_neg (fun h => hne h.2), hneed] at hcleared
      exact Bool.noConfusion hcleared
    · intro heq
      rw [incorporate_fst_needsToBeReparsed d docs r hf, if_pos ⟨hr, heq⟩]
  · intro t2 hlt
    have hne : r.needsToBeReparsedChangeTimePoint ≠ t2 := Nat.ne_of_lt hlt
    rw [incorporate_fst_needsToBeReparsed (d.setDirty t2) docs r hf, if_neg,
      DocumentData.setDirty]
    intro ⟨_, heq⟩
    exact hne heq

/-- Witness for C1 at a concrete input: the reparse result stamped with the
same time point the document currently carries clears the flag. -/
theorem incorporate_reparse_clears_witness :
    (({ exampleDoc with
        needsToBeReparsed := true : DocumentData }).incorporateUpdaterResult
      exampleDocs exampleReparseResult).1.needsToBeReparsed = false :=
  (incorporate_reparse_clears_iff_timestamp_matches
    { exampleDoc with needsToBeReparsed := true }
    exampleDocs exampleReparseResult rfl rfl).1 rfl

/-- C2: for every backing state and every result with
hasParseOrReparseFailed = true, incorporateUpdaterResult sets the failure
flag, forces needsToBeReparsed to false, and returns early: every other field
of the state is unchanged and the Documents collection (the watch set) is not
touched; afterwards isIntact returns false. -/
theorem incorporate_failed_sets_flag_and_returns
    (d : DocumentData) (docs : Documents) (r : TranslationUnitUpdateResult)
    (hf : r.hasParseOrReparseFailed = true) :
    d.incorporateUpdaterResult docs r
      = ({ d with hasParseOrReparseFailed := true, needsToBeReparsed := false },
         docs)
    ∧ ∀ fs, Document.isIntact fs ⟨some (d.incorporateUpdaterResult docs r).1⟩
        = .ok false := by
  constructor
  · simp [DocumentData.incorporateUpdaterResult, hf]
  · intro fs
    simp [DocumentData.incorporateUpdaterResult, hf, Document.isIntact,
      DocumentData.fileExists]

/-- Witness for C2 at a concrete input. -/
theorem incorporate_failed_witness :
    exampleDoc.incorporateUpdaterResult exampleDocs exampleFailedResult
      = ({ exampleDoc with
            hasParseOrReparseFailed := true, needsToBeReparsed := false },
         exampleDocs) :=
  (incorporate_failed_sets_flag_and_returns exampleDoc exampleDocs
    exampleFailedResult rfl).1

/-- C3: isIntact returns true exactly when the handle is non-null, the file
exists on disk, and there is no unresolved parse-or-reparse failure. -/
theorem isIntact_iff_nonNull_exists_noFailure (fs : FileSystem)
    (doc : Document) :
    Document.isIntact fs doc = .ok true ↔
      (doc.isNull = false ∧ ∃ dd, doc.d = some dd ∧ dd.fileExists fs = true
        ∧ dd.hasParseOrReparseFailed = false) := by
  obtain ⟨dd⟩ := doc
  cases dd with
  | none => simp [Document.isIntact, Document.isNull]
  | some d =>
    simp only [Document.isIntact, Document.isNull, DocumentData.fileExists,
      Option.isNone_some, Except.ok.injEq, Bool.and_eq_true, Bool.not_eq_eq_eq_not,
      Bool.not_true, Option.some.injEq]
    constructor
    · intro ⟨h1, h2⟩
      exact ⟨by trivial, d, rfl, h1, h2⟩
    · intro ⟨_, dd, hdd, h1, h2⟩
      cases hdd
      exact ⟨h1, h2⟩

/-- Witness for C3 at a concrete input: an intact document. -/
theorem isIntact_witness :
    Document.isIntact (fun _ => true) ⟨some exampleDoc⟩ = .ok true :=
  (isIntact_iff_nonNull_exists_noFailure (fun _ => true)
      ⟨some exampleDoc⟩).mpr
    ⟨rfl, exampleDoc, rfl, rfl, rfl⟩

/-- C4: setDirtyIfDependencyIsMet marks the state dirty (needsToBeReparsed
true, time point refreshed to now) exactly when the given path is in the
dependency set and is either not the document's own file or the own file
still exists; in particular, with the document's own path and the file
deleted, the state is returned unchanged. -/
theorem setDirtyIfDependencyIsMet_iff (fs : FileSystem) (d : DocumentData)
    (p : Utf8String) (now : TimePoint) :
    ((p ∈ d.dependedFilePaths ∧ (p ≠ d.filePath ∨ fs d.filePath = true)) →
      d.setDirtyIfDependencyIsMet fs p now = d.setDirty now)
    ∧ (¬(p ∈ d.dependedFilePaths ∧ (p ≠ d.filePath ∨ fs d.filePath = true)) →
      d.setDirtyIfDependencyIsMet fs p now = d)
    ∧ (p = d.filePath → fs d.filePath = false →
      d.setDirtyIfDependencyIsMet fs p now = d) := by
  have hmain : d.isMainFileAndExistsOrIsOtherFile fs p = true ↔
      (p ≠ d.filePath ∨ fs d.filePath = true) := by
    unfold DocumentData.isMainFileAndExistsOrIsOtherFile
    split <;> simp_all
  refine ⟨?_, ?_, ?_⟩
  · intro ⟨hmem, hcond⟩
    simp [DocumentData.setDirtyIfDependencyIsMet, hmem, hmain.mpr hcond]
  · intro hnot
    rw [DocumentData.setDirtyIfDependencyIsMet, if_neg]
    intro ⟨hmem, hcond⟩
    exact hnot ⟨hmem, hmain.mp hcond⟩
  · intro hself hgone
    rw [DocumentData.setDirtyIfDependencyIsMet, if_neg]
    intro ⟨_, hcond⟩
    rcases hmain.mp hcond with hne | hex
    · exact hne hself
    · rw [hgone] at hex
      exact Bool.false_ne_true hex

/-- Witness for C4 at a concrete input: the document's own path with the file
deleted leaves the state unchanged. -/
theorem setDirtyIfDependencyIsMet_witness :
    exampleDoc.setDirtyIfDependencyIsMet (fun _ => false) "/a.cpp" 7
      = exampleDoc :=
  (setDirtyIfDependencyIsMet_iff (fun _ => false) exampleDoc "/a.cpp" 7).2.2
    rfl rfl

/-- Counterexample to C5 as stated: a backing state that still needs a
reparse, incorporated with a successful result carrying reparsed = false and
no recorded parse time point, keeps needsToBeReparsed = true and keeps its
old dependency set instead of the result's reported one. -/
theorem incorporate_parse_roundtrip_cex :
    (({ exampleDoc with
        needsToBeReparsed := true : DocumentData }).incorporateUpdaterResult
      exampleDocs exampleStaleParseResult).1.needsToBeReparsed = true
    ∧ (({ exampleDoc with
        needsToBeReparsed := true : DocumentData }).incorporateUpdaterResult
      exampleDocs exampleStaleParseResult).1.dependedFilePaths
        ≠ exampleStaleParseResult.dependedOnFilePaths := by
  constructor
  · rfl
  · intro h
    simp [DocumentData.incorporateUpdaterResult, exampleDoc,
      exampleStaleParseResult, exampleDocs] at h

/-- C5 (amended): incorporating a successful (failed = false), non-reparse
(reparsed = false) result that records a parse time point, into a state whose
needsToBeReparsed flag is false (as holds right after a parse request that
was served without a reparse), leaves needsToBeReparsed = false and replaces
the dependency set with exactly the result's reported set. -/
theorem incorporate_parse_roundtrip
    (d : DocumentData) (docs : Documents) (r : TranslationUnitUpdateResult)
    (hf : r.hasParseOrReparseFailed = false) (_hr : r.reparsed = false)
    (hp : r.parseTimePointIsSet = true) (hn : d.needsToBeReparsed = false) :
    (d.incorporateUpdaterResult docs r).1.needsToBeReparsed = false
    ∧ (d.incorporateUpdaterResult docs r).1.dependedFilePaths
        = r.dependedOnFilePaths := by
  constructor
  · rw [incorporate_fst_needsToBeReparsed d docs r hf]
    split
    · rfl
    · exact hn
  · rw [incorporate_fst_dependedFilePaths d docs r hf, if_pos (Or.inl hp)]

/-- Witness for C5 (amended) at a concrete input. -/
theorem incorporate_parse_roundtrip_witness :
    (exampleDoc.incorporateUpdaterResult exampleDocs
        exampleParseResult).1.needsToBeReparsed = false
    ∧ (exampleDoc.incorporateUpdaterResult exampleDocs
        exampleParseResult).1.dependedFilePaths
          = exampleParseResult.dependedOnFilePaths :=
  incorporate_parse_roundtrip exampleDoc exampleDocs exampleParseResult
    rfl rfl rfl rfl

/-- Counterexample to C6 as stated: isIntact invoked on a null Document does
not fail with the null-document error; it returns false. -/
theorem isIntact_null_returns_false_cex :
    Document.isIntact (fun _ => true) ⟨none⟩ = .ok false
    ∧ Document.isIntact (fun _ => true) ⟨none⟩
        ≠ .error ClangBackEndError.documentIsNull := by
  constructor
  · rfl
  · intro h
    simp [Document.isIntact] at h

/-- C6 (amended): on a null Document every accessor that performs the null
check (filePath, fileArguments, projectPartId, isProjectPartOutdated,
documentRevision, isNeedingReparse, isNeededReparseChangeTimePoint,
dependedFilePaths) fails with the null-document error, while isIntact
performs no null check and returns false. -/
theorem null_document_accessor_behaviour :
    Document.filePath ⟨none⟩ = .error .documentIsNull
    ∧ Document.fileArguments ⟨none⟩ = .error .documentIsNull
    ∧ Document.projectPartId ⟨none⟩ = .error .documentIsNull
    ∧ Document.isProjectPartOutdated ⟨none⟩ = .error .documentIsNull
    ∧ Document.documentRevision ⟨none⟩ = .error .documentIsNull
    ∧ Document.isNeedingReparse ⟨none⟩ = .error .documentIsNull
    ∧ Document.isNeededReparseChangeTimePoint ⟨none⟩ = .error .documentIsNull
    ∧ (∀ fs, Document.dependedFilePaths fs ⟨none⟩ = .error .documentIsNull)
    ∧ (∀ fs, Document.isIntact fs ⟨none⟩ = .ok false) :=
  ⟨rfl, rfl, rfl, rfl, rfl, rfl, rfl, fun _ => rfl, fun _ => rfl⟩

/-- C7: for a non-null Document, isProjectPartOutdated returns true exactly
when the project part's last-change time point is at or after the recorded
last-synced time point; the boundary case of equal time points counts as
outdated. -/
theorem isProjectPartOutdated_iff_ge (d : DocumentData) :
    (Document.isProjectPartOutdated ⟨some d⟩ = .ok true ↔
      d.projectPart.lastChangeTimePoint ≥ d.lastProjectPartChangeTimePoint)
    ∧ (d.projectPart.lastChangeTimePoint = d.lastProjectPartChangeTimePoint →
      Document.isProjectPartOutdated ⟨some d⟩ = .ok true) := by
  constructor
  · simp [Document.isProjectPartOutdated, DocumentData.isProjectPartOutdated]
  · intro heq
    simp [Document.isProjectPartOutdated, DocumentData.isProjectPartOutdated,
      heq]

/-- Witness for C7 at a concrete input: equal time points count as outdated. -/
theorem isProjectPartOutdated_witness :
    Document.isProjectPartOutdated ⟨some exampleDoc⟩ = .ok true :=
  (isProjectPartOutdated_iff_ge exampleDoc).2 rfl

/-- C8: setDirty always ends with needsToBeReparsed = true (idempotent in its
effect on the flag), and two consecutive calls at clock readings t1 then t2
(the steady clock is monotone, so t1 is at most t2) record time points t1 then
t2 with the second at least the first. -/
theorem setDirty_idempotent_monotone (d : DocumentData) (t1 t2 : TimePoint)
    (h : t1 ≤ t2) :
    (d.setDirty t1).needsToBeReparsed = true
    ∧ ((d.setDirty t1).setDirty t2).needsToBeReparsed = true
    ∧ (d.setDirty t1).needsToBeReparsedChangeTimePoint = t1
    ∧ ((d.setDirty t1).setDirty t2).needsToBeReparsedChangeTimePoint = t2
    ∧ (d.setDirty t1).needsToBeReparsedChangeTimePoint
        ≤ ((d.setDirty t1).setDirty t2).needsToBeReparsedChangeTimePoint :=
  ⟨rfl, rfl, rfl, rfl, h⟩

/-- Witness for C8 at a concrete input. -/
theorem setDirty_idempotent_monotone_witness :
    (exampleDoc.setDirty 1).needsToBeReparsed = true
    ∧ ((exampleDoc.setDirty 1).setDirty 2).needsToBeReparsed = true
    ∧ (exampleDoc.setDirty 1).needsToBeReparsedChangeTimePoint = 1
    ∧ ((exampleDoc.setDirty 1).setDirty 2).needsToBeReparsedChangeTimePoint = 2
    ∧ (exampleDoc.setDirty 1).needsToBeReparsedChangeTimePoint
        ≤ ((exampleDoc.setDirty 1).setDirty 2).needsToBeReparsedChangeTimePoint :=
  setDirty_idempotent_monotone exampleDoc 1 2 (by decide)

/-- C9: createUpdateInput leaves the backing state exactly as it was and the
request it returns is built purely from the current fields plus the unsaved
files supplied by the owning Documents collection. -/
theorem createUpdateInput_no_mutation (d : DocumentData) (docs : Documents) :
    (d.createUpdateInput docs).2 = d
    ∧ (d.createUpdateInput docs).1 =
      { parseNeeded := d.isProjectPartOutdated,
        reparseNeeded := d.needsToBeReparsed,
        needsToBeReparsedChangeTimePoint := d.needsToBeReparsedChangeTimePoint,
        filePath := d.filePath,
        fileArguments := d.fileArguments,
        unsavedFiles := docs.unsavedFiles,
        projectId := d.projectPart.projectPartId,
        projectArguments := d.projectPart.arguments } :=
  ⟨rfl, rfl⟩

/-- C10: move construction and move assignment transfer the backing pointer:
the destination holds exactly the state the source held before the move, and
the moved-from handle is null afterwards. -/
theorem move_transfers_state_and_nulls_source (doc : Document) :
    (Document.moveConstruct doc).1 = doc
    ∧ (Document.moveConstruct doc).2.isNull = true
    ∧ (∀ tgt, (Document.moveAssign tgt doc).1 = doc)
    ∧ (∀ tgt, (Document.moveAssign tgt doc).2.isNull = true) :=
  ⟨rfl, rfl, fun _ => rfl, fun _ => rfl⟩

end ClangBackEnd
